import Mathlib

/-!
Verification of the move-eligibility resolver of the block-mover component
(src/packages/block-editor/src/components/block-mover/index.native.js) and of
the reduceMotion style helper, as a shallow embedding in Lean 4.

The component itself (`BlockMover`), the selector wiring (`mapSelectToProps`,
mirroring the withSelect body) and the dispatch wiring (`mapDispatchToProps`,
mirroring the withDispatch body) are translated from the source.  The
core/block-editor store selectors (getBlockOrder, getBlockIndex,
getBlockRootClientId, getTemplateLock) are not part of the reviewed source
tree; they are modelled from the specification, section 6 (external read
port: getOrdering, getIndex, getLockState).
-/

namespace BlockMoverSpec

/-- The four arrow icons imported from the icons package; only their identity
matters to the component, which picks between them on the axis flag. -/
inductive Icon where
  | arrowUp
  | arrowDown
  | arrowLeft
  | arrowRight
deriving DecidableEq, Repr

/-- A store action the dispatch wiring can bind to a button.  The withDispatch
body builds the two callbacks by partially applying moveBlocksUp and
moveBlocksDown to (clientIds, rootClientId); the callback value is fully
determined by which mutator it wraps and those two captured arguments. -/
inductive Action where
  | moveBlocksUp (clientIds : List String) (rootClientId : Option String)
  | moveBlocksDown (clientIds : List String) (rootClientId : Option String)
deriving DecidableEq, Repr

/-- The props the component hands to one ToolbarButton: title, disabled flag,
click callback, icon and the accessibility hint passed through extraProps. -/
structure ToolbarButton where
  title : String
  isDisabled : Bool
  onClick : Action
  icon : Icon
  hint : String
deriving DecidableEq, Repr

/-- The props the BlockMover component destructures: the selector-derived
flags and index, the two dispatch-wired callbacks, and the axis flag. -/
structure MoverProps where
  isFirst : Bool
  isLast : Bool
  isLocked : Bool
  onMoveDown : Action
  onMoveUp : Action
  firstIndex : Int
  rootClientId : Option String
  horizontalDirection : Bool
deriving DecidableEq, Repr

/-- JavaScript truth of `! rootClientId`: the root client id is absent
(undefined) or the empty string, i.e. the selection lives in the top-level
scope rather than inside a named container. -/
def falsyId : Option String → Bool
  | none => true
  | some s => s == ""

/-- The sprintf template of the two button titles,
"Move block %2$s from %1$s %3$s to %1$s %4$s", instantiated with the
positional arguments (location, direction, current, target): argument 2 is
the direction word, argument 1 the location noun, arguments 3 and 4 the
one-based current and target ordinals. -/
def moveLabel (location direction : String) (current target : Int) : String :=
  "Move block " ++ direction ++ " from " ++ location ++ " " ++ toString current
    ++ " to " ++ location ++ " " ++ toString target

/-- The BlockMover component body: returns `none` for the null render, or the
two ToolbarButton prop records it renders. -/
def BlockMover (p : MoverProps) : Option (ToolbarButton × ToolbarButton) :=
  let firstButtonIcon := if p.horizontalDirection then Icon.arrowLeft else Icon.arrowUp
  let secondButtonIcon := if p.horizontalDirection then Icon.arrowRight else Icon.arrowDown
  let firstButtonHint :=
    if p.horizontalDirection then "Double tap to move the block to the left"
    else "Double tap to move the block up"
  let secondButtonHint :=
    if p.horizontalDirection then "Double tap to move the block to the right"
    else "Double tap to move the block down"
  let firstBlockTitle :=
    if p.horizontalDirection then "Move block left" else "Move block up"
  let lastBlockTitle :=
    if p.horizontalDirection then "Move block right" else "Move block down"
  let firstButtonDirection := if p.horizontalDirection then "left" else "up"
  let secondButtonDirection := if p.horizontalDirection then "right" else "down"
  let location := if p.horizontalDirection then "position" else "row"
  if p.isLocked || (p.isFirst && p.isLast && falsyId p.rootClientId) then
    none
  else
    some
      ( { title :=
            if !p.isFirst then
              moveLabel location firstButtonDirection (p.firstIndex + 1) p.firstIndex
            else firstBlockTitle,
          isDisabled := p.isFirst,
          onClick := p.onMoveUp,
          icon := firstButtonIcon,
          hint := firstButtonHint },
        { title :=
            if !p.isLast then
              moveLabel location secondButtonDirection (p.firstIndex + 1) (p.firstIndex + 2)
            else lastBlockTitle,
          isDisabled := p.isLast,
          onClick := p.onMoveDown,
          icon := secondButtonIcon,
          hint := secondButtonHint } )

/-- Modelled from the spec: the external read port of section 6
(getOrdering, getIndex, getLockState).  The core/block-editor store selectors
getBlockRootClientId, getBlockOrder and getTemplateLock consumed by the
withSelect body are not part of the reviewed source; a Store packages them as
injected functions.  getBlockRootClientId takes an Option because lodash
first() of an empty list is undefined; getTemplateLock returns the template
lock value of the container, or none when no lock is set. -/
structure Store where
  getBlockRootClientId : Option String → Option String
  getBlockOrder : Option String → List String
  getTemplateLock : Option String → Option String

/-- Modelled from the spec: getIndex(item, container) yields the zero-based
ordinal of the item within the ordering of the container, or the JavaScript
"not found" value -1 when the item is absent or undefined. -/
def getBlockIndex (item : Option String) (order : List String) : Int :=
  match item with
  | none => -1
  | some a => if a ∈ order then (order.indexOf a : Int) else -1

/-- The withSelect body, line by line: rootClientId of the first selected
client id, the block order of that root. -/
def moverRootClientId (store : Store) (clientIds : List String) : Option String :=
  store.getBlockRootClientId clientIds.head?

/-- The block order consulted by the withSelect body: the ordering of the
container of the first selected client id. -/
def moverOrder (store : Store) (clientIds : List String) : List String :=
  store.getBlockOrder (moverRootClientId store clientIds)

/-- firstIndex of the withSelect body: getBlockIndex of the first selected
client id in its root container. -/
def moverFirstIndex (store : Store) (clientIds : List String) : Int :=
  getBlockIndex clientIds.head? (moverOrder store clientIds)

/-- lastIndex of the withSelect body: getBlockIndex of the last selected
client id in the same root container. -/
def moverLastIndex (store : Store) (clientIds : List String) : Int :=
  getBlockIndex clientIds.getLast? (moverOrder store clientIds)

/-- The props returned by the withSelect body: firstIndex, the two boundary
flags, the lock flag (template lock of the root container equal to the string
"all"), and the rootClientId. -/
structure SelectProps where
  firstIndex : Int
  isFirst : Bool
  isLast : Bool
  isLocked : Bool
  rootClientId : Option String
deriving DecidableEq, Repr

/-- The withSelect body of the composed component, translated from the
source: resolves the root container, the block order and the two indices of
the selection, and derives the returned props. -/
def mapSelectToProps (store : Store) (clientIds : List String) : SelectProps :=
  { firstIndex := moverFirstIndex store clientIds,
    isFirst := moverFirstIndex store clientIds == 0,
    isLast := moverLastIndex store clientIds
        == ((moverOrder store clientIds).length : Int) - 1,
    isLocked := store.getTemplateLock (moverRootClientId store clientIds) == some "all",
    rootClientId := moverRootClientId store clientIds }

/-- The withDispatch body: the two callbacks are the moveBlocksDown and
moveBlocksUp mutators partially applied to (clientIds, rootClientId), never
invoked here; the pair is (onMoveDown, onMoveUp). -/
def mapDispatchToProps (clientIds : List String) (rootClientId : Option String) :
    Action × Action :=
  (Action.moveBlocksDown clientIds rootClientId,
   Action.moveBlocksUp clientIds rootClientId)

/-- The full prop record reaching the BlockMover render after the compose
chain: withSelect props, then withDispatch callbacks, plus the axis flag
passed through from the parent. -/
def composedProps (store : Store) (clientIds : List String)
    (horizontal : Bool) : MoverProps :=
  { isFirst := (mapSelectToProps store clientIds).isFirst,
    isLast := (mapSelectToProps store clientIds).isLast,
    isLocked := (mapSelectToProps store clientIds).isLocked,
    onMoveDown :=
      (mapDispatchToProps clientIds (mapSelectToProps store clientIds).rootClientId).1,
    onMoveUp :=
      (mapDispatchToProps clientIds (mapSelectToProps store clientIds).rootClientId).2,
    firstIndex := (mapSelectToProps store clientIds).firstIndex,
    rootClientId := (mapSelectToProps store clientIds).rootClientId,
    horizontalDirection := horizontal }

/-- The composed component: the BlockMover render applied to the composed
props, for a given store snapshot, selection and axis flag. -/
def composedBlockMover (store : Store) (clientIds : List String)
    (horizontal : Bool) : Option (ToolbarButton × ToolbarButton) :=
  BlockMover (composedProps store clientIds horizontal)

/-- One evaluation of the composed component against a store snapshot: the
rendered output, the actions dispatched during the evaluation, and the store
after the evaluation.  The render body contains no dispatch call: the wired
callbacks are attached to the buttons, not invoked, and the store snapshot
is only read. -/
def evaluateMover (store : Store) (clientIds : List String) (horizontal : Bool) :
    Option (ToolbarButton × ToolbarButton) × List Action × Store :=
  (composedBlockMover store clientIds horizontal, [], store)

/-- The earlier-direction control is rendered and not disabled. -/
def moveEarlierEnabled (p : MoverProps) : Bool :=
  match BlockMover p with
  | none => false
  | some (b, _) => !b.isDisabled

/-- The later-direction control is rendered and not disabled. -/
def moveLaterEnabled (p : MoverProps) : Bool :=
  match BlockMover p with
  | none => false
  | some (_, b) => !b.isDisabled

/-- The observable render view relevant to the resolver output: visibility,
and per button the label, the disabled flag, the icon and the hint (the
click callbacks excluded). -/
def renderView (p : MoverProps) :
    Option ((String × Bool × Icon × String) × (String × Bool × Icon × String)) :=
  (BlockMover p).map fun bs =>
    ((bs.1.title, bs.1.isDisabled, bs.1.icon, bs.1.hint),
     (bs.2.title, bs.2.isDisabled, bs.2.icon, bs.2.hint))

/-- A concrete store snapshot for witnesses: three blocks A, B, C at top
level (no root container), no template lock. -/
def exampleStore : Store :=
  { getBlockRootClientId := fun _ => none,
    getBlockOrder := fun _ => ["A", "B", "C"],
    getTemplateLock := fun _ => none }

/-- A concrete store snapshot with a partial template lock "insert" on a
named container r holding blocks A, B, C. -/
def insertLockStore : Store :=
  { getBlockRootClientId := fun _ => some "r",
    getBlockOrder := fun _ => ["A", "B", "C"],
    getTemplateLock := fun _ => some "insert" }

/-- A concrete prop record for witnesses: a middle block (index 1) inside a
named container, unlocked, vertical axis. -/
def exampleProps : MoverProps :=
  { isFirst := false,
    isLast := false,
    isLocked := false,
    onMoveDown := Action.moveBlocksDown ["B"] (some "r"),
    onMoveUp := Action.moveBlocksUp ["B"] (some "r"),
    firstIndex := 1,
    rootClientId := some "r",
    horizontalDirection := false }

/-- exampleProps with the container fully locked. -/
def lockedProps : MoverProps :=
  { exampleProps with isLocked := true }

/-- exampleProps with different caller-supplied callbacks but identical
resolver inputs. -/
def examplePropsAltCallbacks : MoverProps :=
  { exampleProps with
      onMoveDown := Action.moveBlocksDown ["Z"] none,
      onMoveUp := Action.moveBlocksUp ["Z"] none }

/-- The first button rendered for exampleProps. -/
def exampleFirstButton : ToolbarButton :=
  { title := "Move block up from row 2 to row 1",
    isDisabled := false,
    onClick := Action.moveBlocksUp ["B"] (some "r"),
    icon := Icon.arrowUp,
    hint := "Double tap to move the block up" }

/-- The second button rendered for exampleProps. -/
def exampleSecondButton : ToolbarButton :=
  { title := "Move block down from row 2 to row 3",
    isDisabled := false,
    onClick := Action.moveBlocksDown ["B"] (some "r"),
    icon := Icon.arrowDown,
    hint := "Double tap to move the block down" }

/-- The first button rendered by the composed component for exampleStore and
selection [A]: first block, so the static vertical title, disabled. -/
def exampleRenderFirst : ToolbarButton :=
  { title := "Move block up",
    isDisabled := true,
    onClick := Action.moveBlocksUp ["A"] none,
    icon := Icon.arrowUp,
    hint := "Double tap to move the block up" }

/-- The second button rendered by the composed component for exampleStore
and selection [A]: not last, so the templated label, enabled. -/
def exampleRenderSecond : ToolbarButton :=
  { title := "Move block down from row 1 to row 2",
    isDisabled := false,
    onClick := Action.moveBlocksDown ["A"] none,
    icon := Icon.arrowDown,
    hint := "Double tap to move the block down" }

end BlockMoverSpec

namespace StyleSpec

/-- The fixed media-query template of reduceMotion: the returned template
literal with the interpolated style fragment; the template itself supplies
the surrounding whitespace and the semicolon after the interpolation. -/
def mediaQueryWrap (body : String) : String :=
  "\n\t\t@media ( prefers-reduced-motion: reduce ) \x7b\n\t\t\t"
    ++ body ++ ";\n\t\t\x7d\n\t"

/-- The style fragment of the default switch branch: both declarations, with
the template-literal whitespace of the source. -/
def bothDeclarations : String :=
  "\n\t\t\t\tanimation-duration: 1ms;\n\t\t\t\ttransition-duration: 0ms;\n\t\t\t"

/-- The reduceMotion helper, translated from the source: a switch on the
prop name picking the style fragment, wrapped in the media-query template.
The source gives the parameter the default value "transition"; the
zero-argument call is reduceMotionNoArg below. -/
def reduceMotion (prop : String) : String :=
  mediaQueryWrap
    (if prop = "transition" then "transition-duration: 0ms;"
     else if prop = "animation" then "animation-duration: 1ms;"
     else bothDeclarations)

/-- The zero-argument call reduceMotion(): the default parameter value of
the source is the string "transition". -/
def reduceMotionNoArg : String :=
  reduceMotion "transition"

end StyleSpec

namespace BlockMoverSpec

/-- The earlier-direction control of the render is enabled exactly when the
selection is not first and the container is not fully locked, for every prop
record. -/
theorem moveEarlierEnabled_eq (p : MoverProps) :
    moveEarlierEnabled p = (!p.isFirst && !p.isLocked) := by
  unfold moveEarlierEnabled BlockMover
  cases hL : p.isLocked <;>
    cases hF : p.isFirst <;>
      cases hLa : p.isLast <;>
        cases hR : falsyId p.rootClientId <;> simp [hL, hF, hLa, hR]

/-- The later-direction control of the render is enabled exactly when the
selection is not last and the container is not fully locked, for every prop
record. -/
theorem moveLaterEnabled_eq (p : MoverProps) :
    moveLaterEnabled p = (!p.isLast && !p.isLocked) := by
  unfold moveLaterEnabled BlockMover
  cases hL : p.isLocked <;>
    cases hF : p.isFirst <;>
      cases hLa : p.isLast <;>
        cases hR : falsyId p.rootClientId <;> simp [hL, hF, hLa, hR]

/-- Visibility of the render, for every prop record: the null render happens
exactly on the guard of the component body. -/
theorem blockMover_isSome (p : MoverProps) :
    (BlockMover p).isSome
      = (!p.isLocked && !(p.isFirst && p.isLast && falsyId p.rootClientId)) := by
  unfold BlockMover
  cases hL : p.isLocked <;>
    cases hF : p.isFirst <;>
      cases hLa : p.isLast <;>
        cases hR : falsyId p.rootClientId <;> simp [hL, hF, hLa, hR]

/-- On every rendered pair of buttons, the disabled flags are the boundary
flags and the click callbacks are the two prop callbacks. -/
theorem blockMover_some_fields (p : MoverProps) (b1 b2 : ToolbarButton)
    (h : BlockMover p = some (b1, b2)) :
    b1.isDisabled = p.isFirst ∧ b2.isDisabled = p.isLast
    ∧ b1.onClick = p.onMoveUp ∧ b2.onClick = p.onMoveDown := by
  cases hH : p.horizontalDirection <;>
    cases hL : p.isLocked <;>
      cases hF : p.isFirst <;>
        cases hLa : p.isLast <;>
          cases hR : falsyId p.rootClientId <;>
            simp [BlockMover, hH, hL, hF, hLa, hR] at h <;>
              obtain ⟨h1, h2⟩ := h <;>
                subst h1 <;> subst h2 <;> simp [hF, hLa]

/-- C1: the controls are visible iff the container is not fully locked and it
is not the case that the selection is both first and last in the top-level
scope. -/
theorem controls_visible_iff (p : MoverProps) :
    (BlockMover p).isSome
      = (!p.isLocked && !(p.isFirst && p.isLast && falsyId p.rootClientId)) := by
  unfold BlockMover
  cases hL : p.isLocked <;>
    cases hF : p.isFirst <;>
      cases hLa : p.isLast <;>
        cases hR : falsyId p.rootClientId <;> simp [hL, hF, hLa, hR]

/-- C2: for every non-empty selection fully contained in the ordering, the
move-earlier control is enabled iff the selection is not first and the
container is not fully locked, and the move-later control is enabled iff the
selection is not last and the container is not fully locked; when the
container is unlocked, exactly one of isFirst and moveEarlierEnabled holds,
and exactly one of isLast and moveLaterEnabled holds. -/
theorem move_enabled_iff (store : Store) (clientIds : List String)
    (horizontal : Bool)
    (hne : clientIds ≠ [])
    (hsub : ∀ x ∈ clientIds, x ∈ moverOrder store clientIds)
    (p : MoverProps) (hp : p = composedProps store clientIds horizontal) :
    moveEarlierEnabled p = (!p.isFirst && !p.isLocked)
    ∧ moveLaterEnabled p = (!p.isLast && !p.isLocked)
    ∧ (p.isLocked = false →
        p.isFirst ≠ moveEarlierEnabled p ∧ p.isLast ≠ moveLaterEnabled p) := by
  refine ⟨moveEarlierEnabled_eq p, moveLaterEnabled_eq p, fun hu => ?_⟩
  rw [moveEarlierEnabled_eq, moveLaterEnabled_eq, hu]
  cases p.isFirst <;> cases p.isLast <;> simp

/-- Witness for C2 at the concrete store with blocks A, B, C and selection
[A]: the hypotheses hold and the conclusion evaluates. -/
theorem move_enabled_iff_witness :
    (["A"] ≠ ([] : List String))
    ∧ (∀ x ∈ ["A"], x ∈ moverOrder exampleStore ["A"])
    ∧ (moveEarlierEnabled (composedProps exampleStore ["A"] false)
        = (!(composedProps exampleStore ["A"] false).isFirst
            && !(composedProps exampleStore ["A"] false).isLocked)
       ∧ moveLaterEnabled (composedProps exampleStore ["A"] false)
        = (!(composedProps exampleStore ["A"] false).isLast
            && !(composedProps exampleStore ["A"] false).isLocked)
       ∧ ((composedProps exampleStore ["A"] false).isLocked = false →
            (composedProps exampleStore ["A"] false).isFirst
              ≠ moveEarlierEnabled (composedProps exampleStore ["A"] false)
            ∧ (composedProps exampleStore ["A"] false).isLast
              ≠ moveLaterEnabled (composedProps exampleStore ["A"] false))) :=
  ⟨by decide, by decide,
    move_enabled_iff exampleStore ["A"] false (by decide) (by decide) _ rfl⟩

/-- C3 fails as stated: at ordering [A,B,C], selection [A], unlocked store,
vertical axis, the later control is rendered but its label is not the
claimed string "Move block row from down 1 to down 2": the sprintf template
puts the direction word (positional argument 2) before "from" and the
location noun (positional argument 1) after it. -/
theorem example1_later_label_not_as_claimed :
    ¬ ((composedBlockMover exampleStore ["A"] false).map (fun bs => bs.2.title)
        = some "Move block row from down 1 to down 2") := by
  decide

/-- C3 amended: at ordering [A,B,C], selection [A], unlocked, vertical axis,
isFirst is true, isLast is false, the earlier control is disabled with the
static label "Move block up", the later control is enabled, and its label is
"Move block down from row 1 to row 2" (direction "down", location "row",
ordinals 1 to 2). -/
theorem example1_resolver_output :
    (mapSelectToProps exampleStore ["A"]).isFirst = true
    ∧ (mapSelectToProps exampleStore ["A"]).isLast = false
    ∧ (composedBlockMover exampleStore ["A"] false).map
        (fun bs => (bs.1.title, bs.1.isDisabled, bs.2.title, bs.2.isDisabled))
      = some ("Move block up", true, "Move block down from row 1 to row 2", false) := by
  decide

/-- C4: for every rendered pair of controls, a control whose boundary flag is
false carries the templated label embedding the axis-dependent direction
word, the location noun ("row" vertical, "position" horizontal), the 1-based
current ordinal firstIndex + 1, and the target ordinal (firstIndex for the
earlier control, firstIndex + 2 for the later); a control whose boundary flag
is true carries the static axis-dependent title instead. -/
theorem rendered_labels (p : MoverProps) (b1 b2 : ToolbarButton)
    (h : BlockMover p = some (b1, b2)) :
    (p.isFirst = false →
        b1.title = moveLabel (if p.horizontalDirection then "position" else "row")
            (if p.horizontalDirection then "left" else "up")
            (p.firstIndex + 1) p.firstIndex)
    ∧ (p.isFirst = true →
        b1.title = (if p.horizontalDirection then "Move block left" else "Move block up"))
    ∧ (p.isLast = false →
        b2.title = moveLabel (if p.horizontalDirection then "position" else "row")
            (if p.horizontalDirection then "right" else "down")
            (p.firstIndex + 1) (p.firstIndex + 2))
    ∧ (p.isLast = true →
        b2.title = (if p.horizontalDirection then "Move block right" else "Move block down")) := by
  cases hH : p.horizontalDirection <;>
    cases hL : p.isLocked <;>
      cases hF : p.isFirst <;>
        cases hLa : p.isLast <;>
          cases hR : falsyId p.rootClientId <;>
            simp [BlockMover, hH, hL, hF, hLa, hR] at h <;>
              obtain ⟨h1, h2⟩ := h <;>
                subst h1 <;> subst h2 <;>
                  simp [hH, hF, hLa]

/-- Witness for C4 at exampleProps (a middle block, vertical axis): the
render hypothesis holds and the label conclusions evaluate. -/
theorem rendered_labels_witness :
    BlockMover exampleProps = some (exampleFirstButton, exampleSecondButton)
    ∧ ((exampleProps.isFirst = false →
          exampleFirstButton.title
            = moveLabel (if exampleProps.horizontalDirection then "position" else "row")
                (if exampleProps.horizontalDirection then "left" else "up")
                (exampleProps.firstIndex + 1) exampleProps.firstIndex)
       ∧ (exampleProps.isFirst = true →
          exampleFirstButton.title
            = (if exampleProps.horizontalDirection then "Move block left" else "Move block up"))
       ∧ (exampleProps.isLast = false →
          exampleSecondButton.title
            = moveLabel (if exampleProps.horizontalDirection then "position" else "row")
                (if exampleProps.horizontalDirection then "right" else "down")
                (exampleProps.firstIndex + 1) (exampleProps.firstIndex + 2))
       ∧ (exampleProps.isLast = true →
          exampleSecondButton.title
            = (if exampleProps.horizontalDirection then "Move block right" else "Move block down"))) :=
  ⟨by decide,
    rendered_labels exampleProps exampleFirstButton exampleSecondButton (by decide)⟩

/-- C5: firstIndex is the zero-based index of the first selected item within
the ordering, lastIndex the zero-based index of the last selected item, and
the derived flags satisfy isFirst = (firstIndex == 0) and
isLast = (lastIndex == length(ordering) - 1). -/
theorem select_indices (store : Store) (clientIds : List String) (a b : String)
    (ha : clientIds.head? = some a) (hma : a ∈ moverOrder store clientIds)
    (hb : clientIds.getLast? = some b) (hmb : b ∈ moverOrder store clientIds) :
    (mapSelectToProps store clientIds).firstIndex
        = ((moverOrder store clientIds).indexOf a : Int)
    ∧ moverLastIndex store clientIds = ((moverOrder store clientIds).indexOf b : Int)
    ∧ (mapSelectToProps store clientIds).isFirst
        = ((mapSelectToProps store clientIds).firstIndex == 0)
    ∧ (mapSelectToProps store clientIds).isLast
        = (moverLastIndex store clientIds
            == ((moverOrder store clientIds).length : Int) - 1) := by
  refine ⟨?_, ?_, rfl, rfl⟩
  · simp [mapSelectToProps, moverFirstIndex, getBlockIndex, ha, hma]
  · simp [moverLastIndex, getBlockIndex, hb, hmb]

/-- Witness for C5 at the concrete store with blocks A, B, C and selection
[A]: first and last selected item are both A at index 0. -/
theorem select_indices_witness :
    (["A"].head? = some "A")
    ∧ ("A" ∈ moverOrder exampleStore ["A"])
    ∧ ((mapSelectToProps exampleStore ["A"]).firstIndex
          = ((moverOrder exampleStore ["A"]).indexOf "A" : Int)
       ∧ moverLastIndex exampleStore ["A"]
          = ((moverOrder exampleStore ["A"]).indexOf "A" : Int)
       ∧ (mapSelectToProps exampleStore ["A"]).isFirst
          = ((mapSelectToProps exampleStore ["A"]).firstIndex == 0)
       ∧ (mapSelectToProps exampleStore ["A"]).isLast
          = (moverLastIndex exampleStore ["A"]
              == ((moverOrder exampleStore ["A"]).length : Int) - 1)) :=
  ⟨rfl, by decide,
    select_indices exampleStore ["A"] "A" "A" rfl (by decide) rfl (by decide)⟩

/-- C6: the resolver is deterministic and stateless: two prop records that
agree on isFirst, isLast, isLocked, firstIndex, rootClientId and the axis
flag yield the same visibility, the same rendered view (labels, disabled
flags, icons, hints) and the same enablement. -/
theorem resolver_deterministic (p q : MoverProps)
    (h1 : p.isFirst = q.isFirst) (h2 : p.isLast = q.isLast)
    (h3 : p.isLocked = q.isLocked) (h4 : p.firstIndex = q.firstIndex)
    (h5 : p.rootClientId = q.rootClientId)
    (h6 : p.horizontalDirection = q.horizontalDirection) :
    (BlockMover p).isSome = (BlockMover q).isSome
    ∧ renderView p = renderView q
    ∧ moveEarlierEnabled p = moveEarlierEnabled q
    ∧ moveLaterEnabled p = moveLaterEnabled q := by
  obtain ⟨pf, pl, plo, pd, pu, pi, pr, ph⟩ := p
  obtain ⟨qf, ql, qlo, qd, qu, qi, qr, qh⟩ := q
  dsimp only at h1 h2 h3 h4 h5 h6
  subst h1; subst h2; subst h3; subst h4; subst h5; subst h6
  cases hc : (plo || (pf && pl && falsyId pr)) <;>
    simp [renderView, BlockMover, moveEarlierEnabled, moveLaterEnabled, hc]

/-- Witness for C6: exampleProps and a copy with different callbacks agree
on the six inputs and produce the same view. -/
theorem resolver_deterministic_witness :
    exampleProps.isFirst = examplePropsAltCallbacks.isFirst
    ∧ exampleProps.isLast = examplePropsAltCallbacks.isLast
    ∧ ((BlockMover exampleProps).isSome = (BlockMover examplePropsAltCallbacks).isSome
       ∧ renderView exampleProps = renderView examplePropsAltCallbacks
       ∧ moveEarlierEnabled exampleProps = moveEarlierEnabled examplePropsAltCallbacks
       ∧ moveLaterEnabled exampleProps = moveLaterEnabled examplePropsAltCallbacks) :=
  ⟨rfl, rfl,
    resolver_deterministic exampleProps examplePropsAltCallbacks
      rfl rfl rfl rfl rfl rfl⟩

/-- C7: for every input with the container fully locked, the component
completes normally and returns the empty render; the lock never surfaces as
a thrown failure. -/
theorem locked_returns_null (p : MoverProps) (h : p.isLocked = true) :
    BlockMover p = none := by
  unfold BlockMover
  simp [h]

/-- Witness for C7 at the locked prop record. -/
theorem locked_returns_null_witness :
    lockedProps.isLocked = true ∧ BlockMover lockedProps = none :=
  ⟨rfl, locked_returns_null lockedProps rfl⟩

/-- C8: an evaluation of the composed component dispatches no actions and
leaves the store snapshot unchanged, and the rendered buttons delegate
movement to the dispatch-wired callbacks: the first button's callback is
moveBlocksUp applied to (clientIds, rootClientId) and the second button's is
moveBlocksDown applied to the same arguments. -/
theorem resolver_no_mutation (store : Store) (clientIds : List String)
    (horizontal : Bool) (b1 b2 : ToolbarButton)
    (h : composedBlockMover store clientIds horizontal = some (b1, b2)) :
    (evaluateMover store clientIds horizontal).2.1 = []
    ∧ (evaluateMover store clientIds horizontal).2.2 = store
    ∧ b1.onClick = Action.moveBlocksUp clientIds (moverRootClientId store clientIds)
    ∧ b2.onClick = Action.moveBlocksDown clientIds (moverRootClientId store clientIds) := by
  obtain ⟨_, _, ho1, ho2⟩ :=
    blockMover_some_fields (composedProps store clientIds horizontal) b1 b2 h
  exact ⟨rfl, rfl, ho1, ho2⟩

/-- Witness for C8 at the concrete store with blocks A, B, C and selection
[A]: the render hypothesis holds and the wiring conclusions evaluate. -/
theorem resolver_no_mutation_witness :
    composedBlockMover exampleStore ["A"] false
        = some (exampleRenderFirst, exampleRenderSecond)
    ∧ ((evaluateMover exampleStore ["A"] false).2.1 = []
       ∧ (evaluateMover exampleStore ["A"] false).2.2 = exampleStore
       ∧ exampleRenderFirst.onClick
           = Action.moveBlocksUp ["A"] (moverRootClientId exampleStore ["A"])
       ∧ exampleRenderSecond.onClick
           = Action.moveBlocksDown ["A"] (moverRootClientId exampleStore ["A"])) :=
  ⟨by decide,
    resolver_no_mutation exampleStore ["A"] false
      exampleRenderFirst exampleRenderSecond (by decide)⟩

/-- C9: the lock flag holds exactly when the template lock of the root
container is the string "all"; for every other lock value (a partial lock
such as "insert", or no lock) the flag is false, visibility depends on
position and scope alone, and the rendered buttons are disabled exactly at
the boundary flags. -/
theorem locked_iff_template_all (store : Store) (clientIds : List String)
    (horizontal : Bool) :
    ((mapSelectToProps store clientIds).isLocked = true
       ↔ store.getTemplateLock (moverRootClientId store clientIds) = some "all")
    ∧ (store.getTemplateLock (moverRootClientId store clientIds) ≠ some "all" →
        (mapSelectToProps store clientIds).isLocked = false
        ∧ (composedBlockMover store clientIds horizontal).isSome
            = !((mapSelectToProps store clientIds).isFirst
                && (mapSelectToProps store clientIds).isLast
                && falsyId (moverRootClientId store clientIds))
        ∧ ∀ b1 b2, composedBlockMover store clientIds horizontal = some (b1, b2) →
            b1.isDisabled = (mapSelectToProps store clientIds).isFirst
            ∧ b2.isDisabled = (mapSelectToProps store clientIds).isLast) := by
  constructor
  · simp [mapSelectToProps]
  · intro hne
    have hlf : (mapSelectToProps store clientIds).isLocked = false := by
      simp [mapSelectToProps]
      exact hne
    refine ⟨hlf, ?_, ?_⟩
    · have hv := blockMover_isSome (composedProps store clientIds horizontal)
      unfold composedBlockMover
      rw [hv]
      have hcf : (composedProps store clientIds horizontal).isLocked
          = (mapSelectToProps store clientIds).isLocked := rfl
      rw [hcf, hlf]
      simp [composedProps]
      rfl
    · intro b1 b2 hr
      obtain ⟨hd1, hd2, _, _⟩ :=
        blockMover_some_fields (composedProps store clientIds horizontal) b1 b2 hr
      exact ⟨hd1, hd2⟩

/-- Witness for C9 at the store with the partial lock "insert" and selection
[A]: the non-"all" hypothesis holds and the conclusion evaluates. -/
theorem locked_iff_template_all_witness :
    (insertLockStore.getTemplateLock (moverRootClientId insertLockStore ["A"])
        ≠ some "all")
    ∧ (((mapSelectToProps insertLockStore ["A"]).isLocked = true
          ↔ insertLockStore.getTemplateLock (moverRootClientId insertLockStore ["A"])
              = some "all")
       ∧ (insertLockStore.getTemplateLock (moverRootClientId insertLockStore ["A"])
            ≠ some "all" →
          (mapSelectToProps insertLockStore ["A"]).isLocked = false
          ∧ (composedBlockMover insertLockStore ["A"] false).isSome
              = !((mapSelectToProps insertLockStore ["A"]).isFirst
                  && (mapSelectToProps insertLockStore ["A"]).isLast
                  && falsyId (moverRootClientId insertLockStore ["A"]))
          ∧ ∀ b1 b2, composedBlockMover insertLockStore ["A"] false = some (b1, b2) →
              b1.isDisabled = (mapSelectToProps insertLockStore ["A"]).isFirst
              ∧ b2.isDisabled = (mapSelectToProps insertLockStore ["A"]).isLast)) :=
  ⟨by decide, locked_iff_template_all insertLockStore ["A"] false⟩

end BlockMoverSpec

namespace StyleSpec

/-- C10: reduceMotion returns the media-query template instantiated with
exactly "transition-duration: 0ms;" for the prop "transition" (also the
zero-argument default), exactly "animation-duration: 1ms;" for "animation",
and with both declarations for every other prop value. -/
theorem reduceMotion_cases (p : String)
    (h1 : p ≠ "transition") (h2 : p ≠ "animation") :
    reduceMotion "transition" = mediaQueryWrap "transition-duration: 0ms;"
    ∧ reduceMotionNoArg = mediaQueryWrap "transition-duration: 0ms;"
    ∧ reduceMotion "animation" = mediaQueryWrap "animation-duration: 1ms;"
    ∧ reduceMotion p = mediaQueryWrap bothDeclarations := by
  refine ⟨rfl, rfl, by decide, ?_⟩
  unfold reduceMotion
  rw [if_neg h1, if_neg h2]

/-- Witness for C10 at the prop value "color", neither "transition" nor
"animation". -/
theorem reduceMotion_cases_witness :
    ("color" ≠ "transition")
    ∧ ("color" ≠ "animation")
    ∧ (reduceMotion "transition" = mediaQueryWrap "transition-duration: 0ms;"
       ∧ reduceMotionNoArg = mediaQueryWrap "transition-duration: 0ms;"
       ∧ reduceMotion "animation" = mediaQueryWrap "animation-duration: 1ms;"
       ∧ reduceMotion "color" = mediaQueryWrap bothDeclarations) :=
  ⟨by decide, by decide, reduceMotion_cases "color" (by decide) (by decide)⟩

end StyleSpec
